import Mathlib

/-!
Verification development for the core orchestration layer of the Supercell
granular audio processor (`supercell/dsp/granular_processor.cc`).

The embedding below translates the orchestration code into Lean:
  * machine floats are modelled as exact rationals (the constants in the
    source are short decimal literals, so the piecewise structure of every
    map is preserved exactly);
  * the persistence protocol works on a flat stream of 32-bit words,
    modelled as `List Nat`; block sizes are counted in words;
  * collaborator engines (granular player, phase vocoder, reverbs,
    correlator, filters, ...) are out of scope per the specification; the
    embedding keeps only the orchestration-visible part of their state
    (ring-buffer write heads, an abstract filter / pitch-shifter reset
    marker, and the arena partition descriptor).
-/

/-- The playback mode enumeration.  Modelled from the spec: the header file
declaring `PlaybackMode` is not under `src/`; the spec lists the variants
GRANULAR, STRETCH, LOOPING_DELAY, SPECTRAL, SPECTRAL_CLOUD, OLIVERB,
RESONESTOR, KAMMERL plus a sentinel "none yet" value (`last`).  Only the
numeric distinctness of the codes and GRANULAR being the default matter to
the claims. -/
inductive PlaybackMode where
  | granular
  | stretch
  | loopingDelay
  | spectral
  | spectralCloud
  | oliverb
  | resonestor
  | kammerl
  | last
deriving DecidableEq, Repr

/-- Numeric code of a playback mode.  Modelled from the spec: the enum is
listed in this order, so codes are assigned positionally (all values fit in
a `uint8_t`). -/
def PlaybackMode.toNat : PlaybackMode → Nat
  | .granular => 0
  | .stretch => 1
  | .loopingDelay => 2
  | .spectral => 3
  | .spectralCloud => 4
  | .oliverb => 5
  | .resonestor => 6
  | .kammerl => 7
  | .last => 8

/-- Inverse of `PlaybackMode.toNat`; the source performs a
`static_cast<PlaybackMode>` on a stored byte, which is only meaningful for
codes a genuine save produced, so out-of-range codes default to GRANULAR. -/
def modeOfNat : Nat → PlaybackMode
  | 0 => .granular
  | 1 => .stretch
  | 2 => .loopingDelay
  | 3 => .spectral
  | 4 => .spectralCloud
  | 5 => .oliverb
  | 6 => .resonestor
  | 7 => .kammerl
  | 8 => .last
  | _ => .granular

/-- Control parameter snapshot (struct `Parameters`).  The freeze / trigger /
gate entries are used as booleans by the orchestration code. -/
structure Parameters where
  position : ℚ
  size : ℚ
  pitch : ℚ
  density : ℚ
  texture : ℚ
  dry_wet : ℚ
  stereo_spread : ℚ
  feedback : ℚ
  reverb : ℚ
  freeze : Bool
  trigger : Bool
  gate : Bool
deriving DecidableEq, Repr

/-- The persistent state record.  Modelled from the spec: the struct
declaration is not under `src/`; the spec describes it as a fixed-size
record with per-channel write-head offsets, a quality code and a
spectral-mode flag.  It is serialized as `kPersistentStateWords` words. -/
structure PersistentState where
  write_head_0 : Nat
  write_head_1 : Nat
  quality : Nat
  spectral : Nat
deriving DecidableEq, Repr

/-- Number of 32-bit words in the serialized `PersistentState`. -/
def kPersistentStateWords : Nat := 4

/-- Word-level serialization of the persistent state record. -/
def encodePS (p : PersistentState) : List Nat :=
  [p.write_head_0, p.write_head_1, p.quality, p.spectral]

/-- Word-level deserialization of the persistent state record (a short
payload is padded with zeros; a genuine stream always holds 4 words). -/
def decodePS : List Nat → PersistentState
  | a :: b :: c :: d :: _ => ⟨a, b, c, d⟩
  | a :: b :: c :: [] => ⟨a, b, c, 0⟩
  | a :: b :: [] => ⟨a, b, 0, 0⟩
  | a :: [] => ⟨a, 0, 0, 0⟩
  | [] => ⟨0, 0, 0, 0⟩

/-- Descriptor of the arena partitioning / engine initialization performed by
the structural branch of `Prepare`.  The partition layout is entirely
determined by the mode, the channel count, the resolution and the
low-fidelity flag, so the descriptor records exactly those inputs. -/
structure PartitionSpec where
  mode : PlaybackMode
  num_channels : Nat
  res : Nat
  low_fidelity : Bool
deriving DecidableEq, Repr

/-- Orchestration-visible state of the `GranularProcessor`. -/
structure GranularState where
  playback_mode : PlaybackMode
  previous_playback_mode : PlaybackMode
  num_channels : Nat
  low_fidelity : Bool
  bypass : Bool
  silence : Bool
  reset_buffers : Bool
  quality : Nat
  params : Parameters
  freeze_lp : ℚ
  mute_in_fade : ℚ
  mute_out_fade : ℚ
  buffer_8_head_0 : Nat
  buffer_8_head_1 : Nat
  buffer_16_head_0 : Nat
  buffer_16_head_1 : Nat
  raw_buf_0 : List Nat
  raw_buf_1 : List Nat
  buffer_size_words_0 : Nat
  buffer_size_words_1 : Nat
  persistentState : PersistentState
  filters : Nat
  pitch_shifter_state : Nat
  partition : PartitionSpec
deriving DecidableEq, Repr

/-- Resolution (bits per ring-buffer sample) of a quality code.  Modelled
from the spec: the header defining the quality getter is not under `src/`;
the spec only states that the quality selector chooses between 8-bit and
16-bit storage, so qualities `2, 3` select 8-bit and `0, 1` select 16-bit. -/
def resolutionOf (q : Nat) : Nat := if 2 ≤ q % 4 then 8 else 16

/-- The `resolution()` getter. -/
def resolution (s : GranularState) : Nat := resolutionOf s.quality

/-- Raw memory region of channel `i` (`buffer_[i]`), as a word list. -/
def rawAt (s : GranularState) (i : Nat) : List Nat :=
  if i = 0 then s.raw_buf_0 else s.raw_buf_1

/-- Overwrite the raw memory region of channel `i`. -/
def setRawAt (s : GranularState) (i : Nat) (v : List Nat) : GranularState :=
  if i = 0 then { s with raw_buf_0 := v } else { s with raw_buf_1 := v }

/-- `buffer_size_[i]`, counted in 32-bit words. -/
def bufSizeAt (s : GranularState) (i : Nat) : Nat :=
  if i = 0 then s.buffer_size_words_0 else s.buffer_size_words_1

/-- The spectral indicator stored in the persistent state: the numeric mode
code for the two spectral modes and `0` otherwise
(`GranularProcessor::PreparePersistentData`, and recomputed in
`LoadPersistentData`). -/
def spectralIndicator (m : PlaybackMode) : Nat :=
  if m = .spectral ∨ m = .spectralCloud then m.toNat else 0

/-- Write head of the ring buffer pair selected by the low-fidelity flag,
channel 0 (the pair that `PreparePersistentData` records and
`LoadPersistentData` resynchronizes). -/
def activeWriteHead0 (s : GranularState) : Nat :=
  if s.low_fidelity then s.buffer_8_head_0 else s.buffer_16_head_0

/-- Write head of the selected ring buffer pair, channel 1. -/
def activeWriteHead1 (s : GranularState) : Nat :=
  if s.low_fidelity then s.buffer_8_head_1 else s.buffer_16_head_1

/-- `GranularProcessor::PreparePersistentData`: record the write heads of
the active ring buffers, the quality, and the spectral-mode indicator. -/
def preparePersistentData (s : GranularState) : GranularState :=
  { s with persistentState :=
    { write_head_0 := if s.low_fidelity then s.buffer_8_head_0 else s.buffer_16_head_0
      write_head_1 := if s.low_fidelity then s.buffer_8_head_1 else s.buffer_16_head_1
      quality := s.quality
      spectral := spectralIndicator s.playback_mode } }

/-- Target of one persistence block: the state record, or the raw sample
region of one channel. -/
inductive BlockTarget where
  | state
  | buffer (i : Nat)
deriving DecidableEq, Repr

/-- One persistence block descriptor: a four-character-code tag, the data it
points at, and its size in words (`PersistentBlock`). -/
structure PersistentBlock where
  tag : Nat
  target : BlockTarget
  sizeWords : Nat
deriving DecidableEq, Repr

/-- FourCC tag of the state block, ASCII codes of the characters
S, t, a, t packed little-endian. -/
def kTagStat : Nat := 83 + 116 * 256 + 97 * 65536 + 116 * 16777216

/-- FourCC tag of a buffer block, ASCII codes of b, u, f, f. -/
def kTagBuff : Nat := 98 + 117 * 256 + 102 * 65536 + 102 * 16777216

/-- `GranularProcessor::GetPersistentData`: the state block first, then one
buffer block per active channel, each sized `buffer_size_[num_channels_-1]`. -/
def getPersistentData (s : GranularState) : List PersistentBlock :=
  { tag := kTagStat, target := .state, sizeWords := kPersistentStateWords } ::
  (List.range s.num_channels).map (fun i =>
    { tag := kTagBuff, target := .buffer i,
      sizeWords := bufSizeAt s (s.num_channels - 1) })

/-- Current payload words of one block. -/
def blockPayload (s : GranularState) (b : PersistentBlock) : List Nat :=
  match b.target with
  | .state => encodePS s.persistentState
  | .buffer i => (rawAt s i).take b.sizeWords

/-- Serialize a block list into the flat word stream: each block contributes
its tag word, its size word and its payload words. -/
def streamOfBlocks (s : GranularState) : List PersistentBlock → List Nat
  | [] => []
  | b :: bs => b.tag :: b.sizeWords :: (blockPayload s b ++ streamOfBlocks s bs)

/-- The word stream that saving the current state produces. -/
def savedStream (s : GranularState) : List Nat :=
  streamOfBlocks s (getPersistentData s)

/-- `GranularProcessor::ResetFilters` (the filters are collaborator
components; their freshly-initialized state is marked by `0`). -/
def resetFilters (s : GranularState) : GranularState := { s with filters := 0 }

/-- Benign mode-change classification from `GranularProcessor::Prepare`:
neither the old nor the new mode is SPECTRAL, SPECTRAL_CLOUD, RESONESTOR or
OLIVERB, and the old mode is not the sentinel. -/
def benignChange (previous current : PlaybackMode) : Bool :=
  decide (current ≠ PlaybackMode.spectral ∧ previous ≠ PlaybackMode.spectral ∧
    current ≠ PlaybackMode.spectralCloud ∧ previous ≠ PlaybackMode.spectralCloud ∧
    current ≠ PlaybackMode.resonestor ∧ previous ≠ PlaybackMode.resonestor ∧
    current ≠ PlaybackMode.oliverb ∧ previous ≠ PlaybackMode.oliverb ∧
    previous ≠ PlaybackMode.last)

/-- The arena partition / engine initialization that the structural branch
of `Prepare` would build for the current state. -/
def targetPartition (s : GranularState) : PartitionSpec :=
  { mode := s.playback_mode
    num_channels := s.num_channels
    res := resolution s
    low_fidelity := s.low_fidelity }

/-- Ring-buffer (re)initialization performed by the structural branch of
`Prepare` for the ring-buffer-backed modes: the active-resolution buffers of
the active channels are re-initialized over the fresh partition (their write
heads restart; the raw memory contents are not cleared). -/
def initRingHeads (s : GranularState) : GranularState :=
  if resolution s = 8 then
    if s.num_channels = 1 then { s with buffer_8_head_0 := 0 }
    else { s with buffer_8_head_0 := 0, buffer_8_head_1 := 0 }
  else
    if s.num_channels = 1 then { s with buffer_16_head_0 := 0 }
    else { s with buffer_16_head_0 := 0, buffer_16_head_1 := 0 }

/-- Structural branch of `GranularProcessor::Prepare`: re-run the arena
partitioning and engine initialization, re-initialize the ring buffers for
ring-buffer modes, clear the reset flag and record the new mode. -/
def structuralPrepare (s : GranularState) : GranularState :=
  let s1 := { s with partition := targetPartition s, pitch_shifter_state := 0 }
  let s2 :=
    if s.playback_mode ≠ PlaybackMode.spectral ∧
        s.playback_mode ≠ PlaybackMode.spectralCloud ∧
        s.playback_mode ≠ PlaybackMode.resonestor then
      initRingHeads s1
    else s1
  { s2 with reset_buffers := false, previous_playback_mode := s2.playback_mode }

/-- `GranularProcessor::Prepare`.  The trailing per-call priming (phase
vocoder buffering, correlator reload and incremental candidate evaluation)
only touches collaborator engines that are out of scope, so it has no
footprint in the orchestration-visible state. -/
def prepare (s : GranularState) : GranularState :=
  let modeChanged := s.previous_playback_mode ≠ s.playback_mode
  let benign := benignChange s.previous_playback_mode s.playback_mode
  let s1 :=
    if s.reset_buffers = false ∧ modeChanged ∧ benign = true then
      { s with filters := 0, pitch_shifter_state := 0,
               previous_playback_mode := s.playback_mode }
    else s
  let s2 :=
    if (modeChanged ∧ benign = false) ∨ s.reset_buffers = true then
      { s1 with params := { s1.params with freeze := false } }
    else s1
  if s.reset_buffers = true ∨ (modeChanged ∧ benign = false) then
    structuralPrepare s2
  else s2

/-- `set_playback_mode`.  Modelled from the spec: the header is not under
`src/`; the spec lists the playback mode selector as a plain configuration
setter. -/
def setPlaybackMode (s : GranularState) (m : PlaybackMode) : GranularState :=
  { s with playback_mode := m }

/-- `set_quality`.  Modelled from the spec: the header is not under `src/`;
the spec lists the quality selector as a plain configuration setter. -/
def setQuality (s : GranularState) (q : Nat) : GranularState :=
  { s with quality := q }

/-- Copy one block's payload into its target
(the `memcpy` in `LoadPersistentData`): the state block overwrites the
persistent state record; a buffer block overwrites the first `sizeWords`
words of the channel's raw region. -/
def applyBlock (s : GranularState) (b : PersistentBlock) (payload : List Nat) :
    GranularState :=
  match b.target with
  | .state => { s with persistentState := decodePS payload }
  | .buffer i => setRawAt s i (payload ++ (rawAt s i).drop b.sizeWords)

/-- The `i == 0` special handling of `LoadPersistentData`: once the state
block is in, compare the stored spectral indicator with the one recomputed
from the active mode; on mismatch switch to the stored mode (or GRANULAR if
the stored state was not spectral); then re-derive the quality and run
`Prepare` (both indicator values fit in a byte, so the `uint8_t` xor is
exact). -/
def healAtBlockZero (s : GranularState) : GranularState :=
  let currently := spectralIndicator s.playback_mode
  let requiresSpectral := s.persistentState.spectral
  let s1 :=
    if Nat.xor currently requiresSpectral ≠ 0 then
      setPlaybackMode s
        (if requiresSpectral ≠ 0 then modeOfNat requiresSpectral
         else PlaybackMode.granular)
    else s
  prepare (setQuality s1 s1.persistentState.quality)

/-- End of a successful load: resynchronize the write heads of the ring
buffer pair selected by the low-fidelity flag to the stored offsets, force
freeze on, and release the silence gate. -/
def finalizeLoad (s : GranularState) : GranularState :=
  let s1 :=
    if s.low_fidelity then
      { s with buffer_8_head_0 := s.persistentState.write_head_0,
               buffer_8_head_1 := s.persistentState.write_head_1 }
    else
      { s with buffer_16_head_0 := s.persistentState.write_head_0,
               buffer_16_head_1 := s.persistentState.write_head_1 }
  { s1 with params := { s1.params with freeze := true }, silence := false }

/-- The loop of `LoadPersistentData` over the blocks after the first one:
validate each tag / size pair against the expected block, copy the payload,
and fail (clearing the silence gate) on any mismatch or truncated stream. -/
def loadRest : GranularState → List PersistentBlock → List Nat →
    GranularState × Bool
  | s, [], _ => (finalizeLoad s, true)
  | s, b :: bs, t :: sz :: d =>
    if t = b.tag ∧ sz = b.sizeWords then
      loadRest (applyBlock s b (d.take b.sizeWords)) bs (d.drop b.sizeWords)
    else ({ s with silence := false }, false)
  | s, _ :: _, _ => ({ s with silence := false }, false)

/-- `GranularProcessor::LoadPersistentData`: force silence, validate and
copy the state block, run the mode-healing step, re-derive the expected
block list, then load the per-channel buffer blocks. -/
def loadPersistentData (s0 : GranularState) (data : List Nat) :
    GranularState × Bool :=
  let s := { s0 with silence := true }
  match getPersistentData s, data with
  | b0 :: _, t :: sz :: d =>
    if t = b0.tag ∧ sz = b0.sizeWords then
      let s1 := applyBlock s b0 (d.take b0.sizeWords)
      let s2 := healAtBlockZero s1
      loadRest s2 ((getPersistentData s2).drop 1) (d.drop b0.sizeWords)
    else ({ s with silence := false }, false)
  | _, _ => ({ s with silence := false }, false)

/-- A one-pole smoothing step (the `ONE_POLE` macro). -/
def onePole (out target coef : ℚ) : ℚ := out + coef * (target - out)

/-- Result of the feedback stage of `GranularProcessor::Process` (lines
376-398): the updated freeze smoother, whether the shared high-pass and
blend path ran, the feedback amount and the applied gain. -/
structure FeedbackStageResult where
  freezeLp : ℚ
  runs_shared : Bool
  feedbackAmount : ℚ
  fb_gain : ℚ
deriving DecidableEq, Repr

/-- The feedback stage of `Process`: KAMMERL maps the reverb parameter to
the feedback amount while its slice playback is active; every mode other
than OLIVERB, RESONESTOR, KAMMERL and SPECTRAL_CLOUD runs the shared
high-pass-and-blend path, updating the freeze smoother and taking the
feedback amount from the feedback parameter.  `sliceActive` is the
collaborator query `kammerl_.isSlicePlaybackActive()`. -/
def feedbackStage (s : GranularState) (sliceActive : Bool) :
    FeedbackStageResult :=
  let feedback0 : ℚ :=
    if s.playback_mode = PlaybackMode.kammerl ∧ sliceActive = true then
      s.params.reverb
    else 0
  if s.playback_mode ≠ PlaybackMode.oliverb ∧
      s.playback_mode ≠ PlaybackMode.resonestor ∧
      s.playback_mode ≠ PlaybackMode.kammerl ∧
      s.playback_mode ≠ PlaybackMode.spectralCloud then
    let flp := onePole s.freeze_lp (if s.params.freeze then 1 else 0) 0.0005
    let fb := s.params.feedback
    { freezeLp := flp, runs_shared := true, feedbackAmount := fb,
      fb_gain := fb * (1 - flp) }
  else
    { freezeLp := s.freeze_lp, runs_shared := false,
      feedbackAmount := feedback0, fb_gain := feedback0 * (1 - s.freeze_lp) }

/-- Per-sample feedback contribution added to one input channel
(line 394): `fb_gain * (SoftLimit(fb_gain * 1.4 * fb + in) - in)`.
`SoftLimit` lives in an out-of-scope support library, so it is a function
parameter here. -/
def feedbackContribution (softLimit : ℚ → ℚ) (gain x fbSample : ℚ) : ℚ :=
  gain * (softLimit (gain * 1.4 * fbSample + x) - x)

/-- The pitch-shift wet / dry trapezoid computed at the OLIVERB reverb call
site (lines 211-221). -/
def oliverbPitchShiftWet (x : ℚ) : ℚ :=
  let limit : ℚ := 0.7
  let slew : ℚ := 0.4
  if x < -limit then 1
  else if x < -limit + slew then 1 - (x + limit) / slew
  else if x < limit - slew then 0
  else if x < limit then 1 + (x - limit) / slew
  else 1

/-- The pitch-shift wet / dry trapezoid computed at the looping-delay
pitch-shifter call site (lines 430-438). -/
def loopingDelayPitchShiftWet (x : ℚ) : ℚ :=
  let limit : ℚ := 0.7
  let slew : ℚ := 0.4
  if x < -limit then 1
  else if x < -limit + slew then 1 - (x + limit) / slew
  else if x < limit - slew then 0
  else if x < limit then 1 + (x - limit) / slew
  else 1

/-- The meta-parameters the GRANULAR branch of `ProcessGranular` derives
from the density and texture knobs (lines 105-124; the optional semitone
quantization is behind a compile-time flag that is not enabled). -/
structure GranularMeta where
  use_deterministic_seed : Bool
  overlap : ℚ
  window_shape : ℚ
deriving DecidableEq, Repr

/-- Meta-parameter derivation of the GRANULAR branch. -/
def granularMeta (density texture : ℚ) : GranularMeta :=
  { use_deterministic_seed := decide (density < 0.5)
    overlap :=
      if 0.53 ≤ density then (density - 0.53) * 2.12
      else if density ≤ 0.47 then (0.47 - density) * 2.12
      else 0
    window_shape := if texture < 0.75 then texture * 1.333 else 1 }

/-- `GranularProcessor::WarmDistortion` on one sample.  The inverse-tanh
lookup (`Interpolate` over `lut_inv_tanh`) lives in out-of-scope resource
tables, so the interpolated lookup is a function parameter. -/
def warmDistortion (lutInvTanh : ℚ → ℚ) (x parameter : ℚ) : ℚ :=
  if parameter < 0.1 then x
  else
    let fac := 2 * parameter
    let amp := 1 - parameter * 0.45
    let smp := (1 + fac) * x - fac * x * x * x
    let sign : ℚ := if smp < 0 then -1 else 1
    let lookup := max 0 (min 1 (smp / 2 * sign))
    let invTanhSmp := lutInvTanh lookup * sign
    let smp1 := smp + (invTanhSmp - smp) * fac
    let smp2 := smp1 * amp
    max (-1) (min 1 smp2)

/-- One orchestration-level action of `ProcessGranular`. -/
inductive GranularAction where
  | writeRing (channel : Nat) (eightBit : Bool) (play : Bool)
  | dispatch (m : PlaybackMode)
deriving DecidableEq, Repr

/-- The `play` argument of the ring-buffer `WriteFade` calls: the head keeps
recording unless freeze is active, except that OLIVERB and KAMMERL always
keep writing. -/
def writePlay (s : GranularState) : Bool :=
  !s.params.freeze || decide (s.playback_mode = PlaybackMode.oliverb) ||
    decide (s.playback_mode = PlaybackMode.kammerl)

/-- Orchestration trace of `ProcessGranular` (lines 86-104): every mode
except SPECTRAL, SPECTRAL_CLOUD and RESONESTOR first writes each active
channel's input into the active-resolution ring buffer, then exactly one
mode branch is dispatched. -/
def processGranularTrace (s : GranularState) : List GranularAction :=
  (if s.playback_mode ≠ PlaybackMode.spectral ∧
      s.playback_mode ≠ PlaybackMode.spectralCloud ∧
      s.playback_mode ≠ PlaybackMode.resonestor then
    (List.range s.num_channels).map (fun i =>
      GranularAction.writeRing i (decide (resolution s = 8)) (writePlay s))
  else []) ++ [GranularAction.dispatch s.playback_mode]

/-- One stereo frame of 16-bit samples. -/
structure ShortFrame where
  l : Int
  r : Int
deriving DecidableEq, Repr

/-- Entry of `GranularProcessor::Process` (lines 333-343): the bypass branch
copies the input to the output verbatim and returns with the state
untouched; the silence / mid-reset / unprepared-mode gate emits a zero block
and returns; otherwise the body of the pipeline (`continueBody`) runs. -/
def process (s : GranularState) (input : List ShortFrame)
    (continueBody : GranularState → List ShortFrame →
      GranularState × List ShortFrame) :
    GranularState × List ShortFrame :=
  if s.bypass = true then (s, input)
  else if s.silence = true ∨ s.reset_buffers = true ∨
      s.previous_playback_mode ≠ s.playback_mode then
    (s, List.replicate input.length ⟨0, 0⟩)
  else continueBody s input

/-- Concrete parameter snapshot used by the evaluation examples. -/
def exampleParams : Parameters :=
  { position := 0, size := 0, pitch := 0, density := 0, texture := 0,
    dry_wet := 0, stereo_spread := 0, feedback := 3/10, reverb := 1/2,
    freeze := false, trigger := false, gate := false }

/-- Concrete processor state used by the evaluation examples: a prepared
stereo 16-bit GRANULAR state. -/
def exampleBaseState : GranularState :=
  { playback_mode := .granular
    previous_playback_mode := .granular
    num_channels := 2
    low_fidelity := false
    bypass := false
    silence := false
    reset_buffers := false
    quality := 0
    params := exampleParams
    freeze_lp := 0
    mute_in_fade := 0
    mute_out_fade := 0
    buffer_8_head_0 := 0
    buffer_8_head_1 := 0
    buffer_16_head_0 := 5
    buffer_16_head_1 := 7
    raw_buf_0 := [10, 11, 12]
    raw_buf_1 := [20, 21, 22]
    buffer_size_words_0 := 3
    buffer_size_words_1 := 2
    persistentState := ⟨0, 0, 0, 0⟩
    filters := 1
    pitch_shifter_state := 1
    partition := ⟨.granular, 2, 16, false⟩ }

/-- The word stream obtained by serializing the given blocks correctly with
the given payload word lists (used to build load streams whose block at a
chosen index is then corrupted). -/
def headerStream : List PersistentBlock → List (List Nat) → List Nat
  | b :: bs, p :: ps => b.tag :: b.sizeWords :: (p ++ headerStream bs ps)
  | _, _ => []

/-- The data a block target points at is the same in both states (the block
was not copied). -/
def targetUntouched (s1 s2 : GranularState) : BlockTarget → Prop
  | .state => s2.persistentState = s1.persistentState
  | .buffer i => rawAt s2 i = rawAt s1 i

/-- C6: the pitch-shift wet / dry trapezoid equals 1 for pitch at most
-0.7, equals 0 on [-0.3, 0.3], equals 1 for pitch at least 0.7,
interpolates linearly on the two 0.4-wide bands, and the function computed
at the OLIVERB reverb call site is identical to the one computed at the
looping-delay pitch-shifter call site. -/
theorem pitchShiftWetTrapezoid (x : ℚ) :
    (x ≤ -0.7 → oliverbPitchShiftWet x = 1) ∧
    (-0.3 ≤ x → x ≤ 0.3 → oliverbPitchShiftWet x = 0) ∧
    (0.7 ≤ x → oliverbPitchShiftWet x = 1) ∧
    (-0.7 < x → x < -0.3 → oliverbPitchShiftWet x = 1 - (x + 0.7) / 0.4) ∧
    (0.3 < x → x < 0.7 → oliverbPitchShiftWet x = (x - 0.3) / 0.4) ∧
    oliverbPitchShiftWet x = loopingDelayPitchShiftWet x := by
  refine ⟨?_, ?_, ?_, ?_, ?_, rfl⟩
  · intro hx
    simp only [oliverbPitchShiftWet]
    split_ifs with h1 h2 h3 h4
    · rfl
    · have hx2 : x = -0.7 := by linarith
      subst hx2
      norm_num
    · linarith
    · linarith
    · linarith
  · intro hx1 hx2
    simp only [oliverbPitchShiftWet]
    split_ifs with h1 h2 h3 h4
    · linarith
    · linarith
    · rfl
    · have hx3 : x = 0.3 := by linarith
      subst hx3
      norm_num
    · linarith
  · intro hx
    simp only [oliverbPitchShiftWet]
    split_ifs with h1 h2 h3 h4
    · linarith
    · linarith
    · linarith
    · linarith
    · rfl
  · intro hx1 hx2
    simp only [oliverbPitchShiftWet]
    split_ifs with h1 h2 h3 h4
    · linarith
    · rfl
    · linarith
    · linarith
    · linarith
  · intro hx1 hx2
    simp only [oliverbPitchShiftWet]
    split_ifs with h1 h2 h3
    · linarith
    · linarith
    · linarith
    · ring

/-- C6 witness: the trapezoid evaluated at concrete pitches in each band. -/
theorem pitchShiftWetTrapezoidWitness :
    oliverbPitchShiftWet (-1) = 1 ∧
    oliverbPitchShiftWet 0 = 0 ∧
    oliverbPitchShiftWet 1 = 1 ∧
    oliverbPitchShiftWet (-0.5) = 1 - ((-0.5 : ℚ) + 0.7) / 0.4 ∧
    oliverbPitchShiftWet 0.5 = ((0.5 : ℚ) - 0.3) / 0.4 :=
  ⟨(pitchShiftWetTrapezoid (-1)).1 (by norm_num),
   (pitchShiftWetTrapezoid 0).2.1 (by norm_num) (by norm_num),
   (pitchShiftWetTrapezoid 1).2.2.1 (by norm_num),
   (pitchShiftWetTrapezoid (-0.5)).2.2.2.1 (by norm_num) (by norm_num),
   (pitchShiftWetTrapezoid 0.5).2.2.2.2.1 (by norm_num) (by norm_num)⟩

/-- C7: in the GRANULAR branch, overlap is 0 on the density dead zone
[0.47, 0.53], follows the stated 2.12-sloped lines outside it, the
deterministic-seed flag is set exactly below density 0.5, and the window
shape is texture * 1.333 below texture 0.75 and saturates at 1 above. -/
theorem granularMetaParameters (density texture : ℚ) :
    (0.47 ≤ density → density ≤ 0.53 → (granularMeta density texture).overlap = 0) ∧
    (0.53 ≤ density →
      (granularMeta density texture).overlap = (density - 0.53) * 2.12) ∧
    (density ≤ 0.47 →
      (granularMeta density texture).overlap = (0.47 - density) * 2.12) ∧
    ((granularMeta density texture).use_deterministic_seed = true ↔ density < 0.5) ∧
    (texture < 0.75 → (granularMeta density texture).window_shape = texture * 1.333) ∧
    (0.75 ≤ texture → (granularMeta density texture).window_shape = 1) := by
  refine ⟨?_, ?_, ?_, ?_, ?_, ?_⟩
  · intro h1 h2
    simp only [granularMeta]
    split_ifs with ha hb
    · have hd : density = 0.53 := by linarith
      subst hd
      norm_num
    · have hd : density = 0.47 := by linarith
      subst hd
      norm_num
    · rfl
  · intro h
    simp only [granularMeta]
    rw [if_pos h]
  · intro h
    simp only [granularMeta]
    split_ifs with ha
    · linarith
    · rfl
  · simp [granularMeta]
  · intro h
    simp only [granularMeta]
    rw [if_pos h]
  · intro h
    simp only [granularMeta]
    rw [if_neg (not_lt.mpr h)]

/-- C7 witness: the meta-parameters evaluated at concrete knob values in
each regime. -/
theorem granularMetaParametersWitness :
    (granularMeta 0.5 0.5).overlap = 0 ∧
    (granularMeta 0.6 0.5).overlap = ((0.6 : ℚ) - 0.53) * 2.12 ∧
    (granularMeta 0.4 0.5).overlap = ((0.47 : ℚ) - 0.4) * 2.12 ∧
    (granularMeta 0.5 0.5).window_shape = (0.5 : ℚ) * 1.333 ∧
    (granularMeta 0.5 0.8).window_shape = 1 :=
  ⟨(granularMetaParameters 0.5 0.5).1 (by norm_num) (by norm_num),
   (granularMetaParameters 0.6 0.5).2.1 (by norm_num),
   (granularMetaParameters 0.4 0.5).2.2.1 (by norm_num),
   (granularMetaParameters 0.5 0.5).2.2.2.2.1 (by norm_num),
   (granularMetaParameters 0.5 0.8).2.2.2.2.2 (by norm_num)⟩

/-- C10: WarmDistortion returns the sample unchanged when the distortion
parameter is below 0.1, and for parameters at least 0.1 the written result
lies in [-1, 1], for every inverse-tanh lookup. -/
theorem warmDistortionEdgeBehavior (lutInvTanh : ℚ → ℚ) (x parameter : ℚ) :
    (parameter < 0.1 → warmDistortion lutInvTanh x parameter = x) ∧
    (0.1 ≤ parameter →
      -1 ≤ warmDistortion lutInvTanh x parameter ∧
      warmDistortion lutInvTanh x parameter ≤ 1) := by
  constructor
  · intro h
    simp only [warmDistortion]
    rw [if_pos h]
  · intro h
    simp only [warmDistortion]
    rw [if_neg (not_lt.mpr h)]
    exact ⟨le_max_left _ _, max_le (by norm_num) (min_le_left _ _)⟩

/-- C10 witness: a sample far outside [-1, 1] is clamped at parameter 1 and
untouched at parameter 0, for a concrete lookup. -/
theorem warmDistortionEdgeBehaviorWitness :
    warmDistortion (fun _ => 0) 5 0 = 5 ∧
    -1 ≤ warmDistortion (fun _ => 0) 5 1 ∧
    warmDistortion (fun _ => 0) 5 1 ≤ 1 :=
  ⟨(warmDistortionEdgeBehavior (fun _ => 0) 5 0).1 (by norm_num),
   ((warmDistortionEdgeBehavior (fun _ => 0) 5 1).2 (by norm_num)).1,
   ((warmDistortionEdgeBehavior (fun _ => 0) 5 1).2 (by norm_num)).2⟩

/-- C8: with the bypass flag set, `Process` copies the input frames
bit-exactly to the output and returns with no other state mutated, whatever
the rest of the pipeline would do. -/
theorem bypassIdentity (s : GranularState) (input : List ShortFrame)
    (continueBody : GranularState → List ShortFrame →
      GranularState × List ShortFrame)
    (h : s.bypass = true) :
    process s input continueBody = (s, input) := by
  simp [process, h]

/-- C8 witness: the bypass branch on a concrete state and input block. -/
theorem bypassIdentityWitness :
    process { exampleBaseState with bypass := true } [⟨100, -200⟩, ⟨3, 4⟩]
      (fun s _ => (s, [])) =
    ({ exampleBaseState with bypass := true }, [⟨100, -200⟩, ⟨3, 4⟩]) :=
  bypassIdentity { exampleBaseState with bypass := true } [⟨100, -200⟩, ⟨3, 4⟩]
    (fun s _ => (s, [])) rfl

/-- C9: in `ProcessGranular`, every mode except SPECTRAL, SPECTRAL_CLOUD
and RESONESTOR writes each active channel's input into the active ring
buffer (8-bit or 16-bit per the resolution setting) before mode dispatch,
and the write flag is false exactly when freeze is active and the mode is
neither OLIVERB nor KAMMERL. -/
theorem ringBufferWriteGating (s : GranularState) :
    ((s.playback_mode = PlaybackMode.spectral ∨
        s.playback_mode = PlaybackMode.spectralCloud ∨
        s.playback_mode = PlaybackMode.resonestor) →
      processGranularTrace s = [GranularAction.dispatch s.playback_mode]) ∧
    (s.playback_mode ≠ PlaybackMode.spectral →
      s.playback_mode ≠ PlaybackMode.spectralCloud →
      s.playback_mode ≠ PlaybackMode.resonestor →
      processGranularTrace s =
        (List.range s.num_channels).map (fun i =>
          GranularAction.writeRing i (decide (resolution s = 8)) (writePlay s)) ++
        [GranularAction.dispatch s.playback_mode]) ∧
    (writePlay s = false ↔
      s.params.freeze = true ∧ s.playback_mode ≠ PlaybackMode.oliverb ∧
        s.playback_mode ≠ PlaybackMode.kammerl) := by
  refine ⟨?_, ?_, ?_⟩
  · intro h
    have hcond : ¬(s.playback_mode ≠ PlaybackMode.spectral ∧
        s.playback_mode ≠ PlaybackMode.spectralCloud ∧
        s.playback_mode ≠ PlaybackMode.resonestor) := by
      rcases h with h | h | h <;> simp [h]
    simp [processGranularTrace, hcond]
  · intro h1 h2 h3
    simp [processGranularTrace, h1, h2, h3]
  · simp [writePlay, Bool.or_eq_false_iff, Bool.not_eq_true',
      decide_eq_false_iff_not, and_assoc]

/-- C9 witness: the gating evaluated on a SPECTRAL state, on a frozen
GRANULAR state, and on a frozen KAMMERL state. -/
theorem ringBufferWriteGatingWitness :
    processGranularTrace { exampleBaseState with playback_mode := PlaybackMode.spectral } =
      [GranularAction.dispatch PlaybackMode.spectral] ∧
    processGranularTrace exampleBaseState =
      [GranularAction.writeRing 0 false true, GranularAction.writeRing 1 false true,
       GranularAction.dispatch PlaybackMode.granular] ∧
    writePlay { exampleBaseState with
      params := { exampleParams with freeze := true } } = false :=
  ⟨(ringBufferWriteGating _).1 (Or.inl rfl),
   by
    have h := (ringBufferWriteGating exampleBaseState).2.1 (by decide) (by decide)
      (by decide)
    rw [h]
    decide,
   (ringBufferWriteGating { exampleBaseState with
      params := { exampleParams with freeze := true } }).2.2.mpr
    ⟨rfl, by decide, by decide⟩⟩

/-- C5 (amended): the shared high-pass-and-blend feedback stage runs for
every mode except OLIVERB, RESONESTOR, KAMMERL and SPECTRAL_CLOUD; in
KAMMERL the feedback amount is the reverb parameter when slice playback is
active and zero otherwise; the applied gain is
`fb_gain = feedback * (1 - freeze_lp_)`; and the feedback contribution is
zero whenever the freeze-smoothed coefficient equals 1. -/
theorem sharedFeedbackPath (s : GranularState) (sliceActive : Bool)
    (softLimit : ℚ → ℚ) (x fbSample : ℚ) :
    ((feedbackStage s sliceActive).runs_shared = true ↔
      (s.playback_mode ≠ PlaybackMode.oliverb ∧
       s.playback_mode ≠ PlaybackMode.resonestor ∧
       s.playback_mode ≠ PlaybackMode.kammerl ∧
       s.playback_mode ≠ PlaybackMode.spectralCloud)) ∧
    (s.playback_mode = PlaybackMode.kammerl →
      (feedbackStage s sliceActive).feedbackAmount =
        (if sliceActive = true then s.params.reverb else 0)) ∧
    ((feedbackStage s sliceActive).fb_gain =
      (feedbackStage s sliceActive).feedbackAmount *
        (1 - (feedbackStage s sliceActive).freezeLp)) ∧
    ((feedbackStage s sliceActive).freezeLp = 1 →
      feedbackContribution softLimit (feedbackStage s sliceActive).fb_gain x
        fbSample = 0) := by
  have hgain : (feedbackStage s sliceActive).fb_gain =
      (feedbackStage s sliceActive).feedbackAmount *
        (1 - (feedbackStage s sliceActive).freezeLp) := by
    by_cases hc : s.playback_mode ≠ PlaybackMode.oliverb ∧
        s.playback_mode ≠ PlaybackMode.resonestor ∧
        s.playback_mode ≠ PlaybackMode.kammerl ∧
        s.playback_mode ≠ PlaybackMode.spectralCloud
    · simp [feedbackStage, hc]
    · simp [feedbackStage, hc]
  refine ⟨?_, ?_, hgain, ?_⟩
  · by_cases hc : s.playback_mode ≠ PlaybackMode.oliverb ∧
        s.playback_mode ≠ PlaybackMode.resonestor ∧
        s.playback_mode ≠ PlaybackMode.kammerl ∧
        s.playback_mode ≠ PlaybackMode.spectralCloud
    · simp [feedbackStage, hc]
    · simp [feedbackStage, hc]
  · intro h
    have hc : ¬(s.playback_mode ≠ PlaybackMode.oliverb ∧
        s.playback_mode ≠ PlaybackMode.resonestor ∧
        s.playback_mode ≠ PlaybackMode.kammerl ∧
        s.playback_mode ≠ PlaybackMode.spectralCloud) := by
      simp [h]
    simp [feedbackStage, hc, h]
  · intro hflp
    have hz : (feedbackStage s sliceActive).fb_gain = 0 := by
      rw [hgain, hflp]
      ring
    simp [feedbackContribution, hz]

/-- C5 counterexample: the claim as stated says the KAMMERL feedback amount
is taken from the reverb parameter, but with slice playback inactive the
code uses zero instead; at a concrete KAMMERL state with reverb 1/2 the
feedback amount is not the reverb parameter. -/
theorem sharedFeedbackPathCounterexample :
    (feedbackStage { exampleBaseState with playback_mode := PlaybackMode.kammerl }
        false).feedbackAmount ≠
      ({ exampleBaseState with playback_mode := PlaybackMode.kammerl } :
        GranularState).params.reverb := by
  norm_num [feedbackStage, exampleBaseState, exampleParams]

/-- C5 witness: the KAMMERL feedback source with slice playback inactive,
and a vanishing feedback contribution at a fully engaged freeze smoother. -/
theorem sharedFeedbackPathWitness :
    (feedbackStage { exampleBaseState with playback_mode := PlaybackMode.kammerl }
        false).feedbackAmount =
      (if (false : Bool) = true then
        ({ exampleBaseState with playback_mode := PlaybackMode.kammerl } :
          GranularState).params.reverb
      else 0) ∧
    feedbackContribution (fun q => q)
      (feedbackStage
        { exampleBaseState with
          freeze_lp := 1
          params := { exampleParams with freeze := true } }
        false).fb_gain 3 4 = 0 :=
  ⟨(sharedFeedbackPath _ false (fun q => q) 0 0).2.1 rfl,
   (sharedFeedbackPath _ false (fun q => q) 3 4).2.2.2 (by
    simp [feedbackStage, onePole, exampleBaseState, exampleParams])⟩

theorem structuralPrepare_params (s : GranularState) :
    (structuralPrepare s).params = s.params := by
  simp only [structuralPrepare, initRingHeads] <;>
    first
    | rfl
    | (split_ifs <;> rfl)

theorem structuralPrepare_partition (s : GranularState) :
    (structuralPrepare s).partition = targetPartition s := by
  simp only [structuralPrepare, initRingHeads] <;>
    first
    | rfl
    | (split_ifs <;> rfl)

theorem structuralPrepare_reset (s : GranularState) :
    (structuralPrepare s).reset_buffers = false := by
  simp only [structuralPrepare, initRingHeads] <;>
    first
    | rfl
    | (split_ifs <;> rfl)

theorem structuralPrepare_previous (s : GranularState) :
    (structuralPrepare s).previous_playback_mode = s.playback_mode := by
  simp only [structuralPrepare, initRingHeads] <;>
    first
    | rfl
    | (split_ifs <;> rfl)

theorem structuralPrepare_playback (s : GranularState) :
    (structuralPrepare s).playback_mode = s.playback_mode := by
  simp only [structuralPrepare, initRingHeads] <;>
    first
    | rfl
    | (split_ifs <;> rfl)

theorem structuralPrepare_channels (s : GranularState) :
    (structuralPrepare s).num_channels = s.num_channels := by
  simp only [structuralPrepare, initRingHeads] <;>
    first
    | rfl
    | (split_ifs <;> rfl)

theorem structuralPrepare_lofi (s : GranularState) :
    (structuralPrepare s).low_fidelity = s.low_fidelity := by
  simp only [structuralPrepare, initRingHeads] <;>
    first
    | rfl
    | (split_ifs <;> rfl)

theorem structuralPrepare_quality (s : GranularState) :
    (structuralPrepare s).quality = s.quality := by
  simp only [structuralPrepare, initRingHeads] <;>
    first
    | rfl
    | (split_ifs <;> rfl)

theorem structuralPrepare_raw0 (s : GranularState) :
    (structuralPrepare s).raw_buf_0 = s.raw_buf_0 := by
  simp only [structuralPrepare, initRingHeads] <;>
    first
    | rfl
    | (split_ifs <;> rfl)

theorem structuralPrepare_raw1 (s : GranularState) :
    (structuralPrepare s).raw_buf_1 = s.raw_buf_1 := by
  simp only [structuralPrepare, initRingHeads] <;>
    first
    | rfl
    | (split_ifs <;> rfl)

theorem structuralPrepare_size0 (s : GranularState) :
    (structuralPrepare s).buffer_size_words_0 = s.buffer_size_words_0 := by
  simp only [structuralPrepare, initRingHeads] <;>
    first
    | rfl
    | (split_ifs <;> rfl)

theorem structuralPrepare_size1 (s : GranularState) :
    (structuralPrepare s).buffer_size_words_1 = s.buffer_size_words_1 := by
  simp only [structuralPrepare, initRingHeads] <;>
    first
    | rfl
    | (split_ifs <;> rfl)

theorem structuralPrepare_persistent (s : GranularState) :
    (structuralPrepare s).persistentState = s.persistentState := by
  simp only [structuralPrepare, initRingHeads] <;>
    first
    | rfl
    | (split_ifs <;> rfl)

theorem structuralPrepare_silence (s : GranularState) :
    (structuralPrepare s).silence = s.silence := by
  simp only [structuralPrepare, initRingHeads] <;>
    first
    | rfl
    | (split_ifs <;> rfl)

theorem prepare_preserved (s : GranularState) :
    (prepare s).playback_mode = s.playback_mode ∧
    (prepare s).num_channels = s.num_channels ∧
    (prepare s).low_fidelity = s.low_fidelity ∧
    (prepare s).quality = s.quality ∧
    (prepare s).raw_buf_0 = s.raw_buf_0 ∧
    (prepare s).raw_buf_1 = s.raw_buf_1 ∧
    (prepare s).buffer_size_words_0 = s.buffer_size_words_0 ∧
    (prepare s).buffer_size_words_1 = s.buffer_size_words_1 ∧
    (prepare s).persistentState = s.persistentState ∧
    (prepare s).silence = s.silence := by
  simp only [prepare]
  split_ifs <;>
    simp [structuralPrepare_playback, structuralPrepare_channels,
      structuralPrepare_lofi, structuralPrepare_quality, structuralPrepare_raw0,
      structuralPrepare_raw1, structuralPrepare_size0, structuralPrepare_size1,
      structuralPrepare_persistent, structuralPrepare_silence]

theorem prepare_prepared (s : GranularState) :
    (prepare s).previous_playback_mode = s.playback_mode ∧
    (prepare s).reset_buffers = false := by
  simp only [prepare]
  split_ifs with h1 h2 h3 h4 h5 h6 h7
  · rcases h3 with ⟨hr, hmc, hb⟩
    rcases h1 with h | hcon
    · rw [hr] at h
      exact Bool.noConfusion h
    · rw [hb] at hcon
      exact Bool.noConfusion hcon.2
  · simp [structuralPrepare_previous, structuralPrepare_reset]
  · tauto
  · tauto
  · tauto
  · tauto
  · have hr : s.reset_buffers = false := by
      rcases Bool.eq_false_or_eq_true s.reset_buffers with h | h
      · exact absurd (Or.inl h) h1
      · exact h
    exact ⟨rfl, hr⟩
  · have hr : s.reset_buffers = false := by
      rcases Bool.eq_false_or_eq_true s.reset_buffers with h | h
      · exact absurd (Or.inl h) h1
      · exact h
    have hmc : s.previous_playback_mode = s.playback_mode := by
      by_contra hmc
      rcases Bool.eq_false_or_eq_true
          (benignChange s.previous_playback_mode s.playback_mode) with hb | hb
      · exact h7 ⟨hr, hmc, hb⟩
      · exact h1 (Or.inr ⟨hmc, hb⟩)
    exact ⟨hmc, hr⟩

/-- C4: `Prepare` classifies a transition as benign exactly when neither the
previous nor the new mode is SPECTRAL, SPECTRAL_CLOUD, RESONESTOR or OLIVERB
and the previous mode is not the sentinel; a benign transition with the
reset flag clear only resets the filters, clears the pitch shifter and
records the new mode, leaving ring-buffer contents, partitioning and freeze
unchanged; a structural transition (or a set reset flag) disengages freeze,
re-runs the full arena partitioning / engine initialization, and clears the
reset flag. -/
theorem prepareBenignStructural (prev cur : PlaybackMode) (s : GranularState) :
    (benignChange prev cur = true ↔
      (prev ≠ PlaybackMode.spectral ∧ prev ≠ PlaybackMode.spectralCloud ∧
       prev ≠ PlaybackMode.resonestor ∧ prev ≠ PlaybackMode.oliverb ∧
       cur ≠ PlaybackMode.spectral ∧ cur ≠ PlaybackMode.spectralCloud ∧
       cur ≠ PlaybackMode.resonestor ∧ cur ≠ PlaybackMode.oliverb ∧
       prev ≠ PlaybackMode.last)) ∧
    (s.reset_buffers = false →
      s.previous_playback_mode ≠ s.playback_mode →
      benignChange s.previous_playback_mode s.playback_mode = true →
      prepare s = { s with filters := 0, pitch_shifter_state := 0,
                           previous_playback_mode := s.playback_mode }) ∧
    ((s.previous_playback_mode ≠ s.playback_mode ∧
        benignChange s.previous_playback_mode s.playback_mode = false) ∨
      s.reset_buffers = true →
      (prepare s).params.freeze = false ∧
      (prepare s).partition = targetPartition s ∧
      (prepare s).reset_buffers = false) := by
  refine ⟨?_, ?_, ?_⟩
  · simp only [benignChange, decide_eq_true_eq]
    tauto
  · intro hr hmc hb
    have hC1 : s.reset_buffers = false ∧
        s.previous_playback_mode ≠ s.playback_mode ∧
        benignChange s.previous_playback_mode s.playback_mode = true :=
      ⟨hr, hmc, hb⟩
    have hC2 : ¬(s.previous_playback_mode ≠ s.playback_mode ∧
        benignChange s.previous_playback_mode s.playback_mode = false ∨
        s.reset_buffers = true) := by
      rintro (⟨h, hbf⟩ | hrt)
      · rw [hb] at hbf
        exact Bool.noConfusion hbf
      · rw [hr] at hrt
        exact Bool.noConfusion hrt
    have hC3 : ¬(s.reset_buffers = true ∨
        (s.previous_playback_mode ≠ s.playback_mode ∧
          benignChange s.previous_playback_mode s.playback_mode = false)) := by
      rintro (hrt | ⟨h, hbf⟩)
      · rw [hr] at hrt
        exact Bool.noConfusion hrt
      · rw [hb] at hbf
        exact Bool.noConfusion hbf
    simp only [prepare]
    rw [if_neg hC3, if_neg hC2, if_pos hC1]
  · intro h
    have hC3 : s.reset_buffers = true ∨
        (s.previous_playback_mode ≠ s.playback_mode ∧
          benignChange s.previous_playback_mode s.playback_mode = false) :=
      h.elim Or.inr Or.inl
    have hC1 : ¬(s.reset_buffers = false ∧
        s.previous_playback_mode ≠ s.playback_mode ∧
        benignChange s.previous_playback_mode s.playback_mode = true) := by
      rintro ⟨hrf, hmc2, hbt⟩
      rcases h with ⟨h, hbf⟩ | hrt
      · rw [hbt] at hbf
        exact Bool.noConfusion hbf
      · rw [hrf] at hrt
        exact Bool.noConfusion hrt
    simp only [prepare]
    rw [if_pos hC3, if_pos h, if_neg hC1]
    refine ⟨?_, ?_, ?_⟩ <;>
      simp [structuralPrepare_params, structuralPrepare_partition,
        structuralPrepare_reset, targetPartition, resolution]

/-- C4 witness: a benign STRETCH to GRANULAR transition and a structural
GRANULAR to OLIVERB transition on concrete states. -/
theorem prepareBenignStructuralWitness :
    prepare { exampleBaseState with
        previous_playback_mode := PlaybackMode.stretch } =
      { exampleBaseState with
          previous_playback_mode := PlaybackMode.granular,
          filters := 0, pitch_shifter_state := 0 } ∧
    ((prepare { exampleBaseState with
        playback_mode := PlaybackMode.oliverb }).params.freeze = false ∧
     (prepare { exampleBaseState with
        playback_mode := PlaybackMode.oliverb }).partition =
       targetPartition { exampleBaseState with
        playback_mode := PlaybackMode.oliverb } ∧
     (prepare { exampleBaseState with
        playback_mode := PlaybackMode.oliverb }).reset_buffers = false) :=
  ⟨(prepareBenignStructural PlaybackMode.granular PlaybackMode.granular
      { exampleBaseState with
        previous_playback_mode := PlaybackMode.stretch }).2.1
      rfl (by decide) (by decide),
   (prepareBenignStructural PlaybackMode.granular PlaybackMode.granular
      { exampleBaseState with
        playback_mode := PlaybackMode.oliverb }).2.2
      (Or.inl ⟨by decide, by decide⟩)⟩

theorem take_append_len {α : Type} (l₁ l₂ : List α) (n : Nat)
    (h : l₁.length = n) : (l₁ ++ l₂).take n = l₁ := by
  subst h
  exact List.take_left l₁ l₂

theorem drop_append_len {α : Type} (l₁ l₂ : List α) (n : Nat)
    (h : l₁.length = n) : (l₁ ++ l₂).drop n = l₂ := by
  subst h
  exact List.drop_left l₁ l₂

theorem decode_encode (p : PersistentState) : decodePS (encodePS p) = p := rfl

theorem encodePS_len (p : PersistentState) :
    (encodePS p).length = kPersistentStateWords := rfl

theorem prepare_playback (s : GranularState) :
    (prepare s).playback_mode = s.playback_mode := (prepare_preserved s).1

theorem prepare_channels (s : GranularState) :
    (prepare s).num_channels = s.num_channels := (prepare_preserved s).2.1

theorem prepare_lofi (s : GranularState) :
    (prepare s).low_fidelity = s.low_fidelity := (prepare_preserved s).2.2.1

theorem prepare_quality (s : GranularState) :
    (prepare s).quality = s.quality := (prepare_preserved s).2.2.2.1

theorem prepare_raw0 (s : GranularState) :
    (prepare s).raw_buf_0 = s.raw_buf_0 := (prepare_preserved s).2.2.2.2.1

theorem prepare_raw1 (s : GranularState) :
    (prepare s).raw_buf_1 = s.raw_buf_1 := (prepare_preserved s).2.2.2.2.2.1

theorem prepare_size0 (s : GranularState) :
    (prepare s).buffer_size_words_0 = s.buffer_size_words_0 :=
  (prepare_preserved s).2.2.2.2.2.2.1

theorem prepare_size1 (s : GranularState) :
    (prepare s).buffer_size_words_1 = s.buffer_size_words_1 :=
  (prepare_preserved s).2.2.2.2.2.2.2.1

theorem prepare_persistent (s : GranularState) :
    (prepare s).persistentState = s.persistentState :=
  (prepare_preserved s).2.2.2.2.2.2.2.2.1

theorem loadRest_nil (s : GranularState) (d : List Nat) :
    loadRest s [] d = (finalizeLoad s, true) := rfl

theorem loadRest_cons_ok (s : GranularState) (b : PersistentBlock)
    (bs : List PersistentBlock) (p d : List Nat)
    (hp : p.length = b.sizeWords) :
    loadRest s (b :: bs) (b.tag :: b.sizeWords :: (p ++ d)) =
      loadRest (applyBlock s b p) bs d := by
  simp only [loadRest, eq_self_iff_true, and_self, if_true, ite_true]
  rw [take_append_len _ _ _ hp, drop_append_len _ _ _ hp]

theorem loadRest_cons_fail (s : GranularState) (b : PersistentBlock)
    (bs : List PersistentBlock) (t sz : Nat) (d : List Nat)
    (h : ¬(t = b.tag ∧ sz = b.sizeWords)) :
    loadRest s (b :: bs) (t :: sz :: d) =
      ({ s with silence := false }, false) := by
  simp only [loadRest]
  rw [if_neg h]

theorem applyBlock_state_eq (s : GranularState) (tg szw : Nat) (p : List Nat) :
    applyBlock s { tag := tg, target := .state, sizeWords := szw } p =
      { s with persistentState := decodePS p } := rfl

theorem applyBuffer_preserved (s : GranularState) (tg szw i : Nat)
    (p : List Nat) :
    (applyBlock s { tag := tg, target := .buffer i, sizeWords := szw } p).persistentState = s.persistentState ∧
    (applyBlock s { tag := tg, target := .buffer i, sizeWords := szw } p).num_channels = s.num_channels ∧
    (applyBlock s { tag := tg, target := .buffer i, sizeWords := szw } p).low_fidelity = s.low_fidelity ∧
    (applyBlock s { tag := tg, target := .buffer i, sizeWords := szw } p).playback_mode = s.playback_mode ∧
    (applyBlock s { tag := tg, target := .buffer i, sizeWords := szw } p).buffer_size_words_0 = s.buffer_size_words_0 ∧
    (applyBlock s { tag := tg, target := .buffer i, sizeWords := szw } p).buffer_size_words_1 = s.buffer_size_words_1 ∧
    (applyBlock s { tag := tg, target := .buffer i, sizeWords := szw } p).params = s.params ∧
    (applyBlock s { tag := tg, target := .buffer i, sizeWords := szw } p).silence = s.silence := by
  simp only [applyBlock, setRawAt]
  split_ifs <;> simp

theorem applyBuffer_raw0_ne (s : GranularState) (tg szw : Nat) (p : List Nat) :
    (applyBlock s { tag := tg, target := .buffer 1, sizeWords := szw } p).raw_buf_0 = s.raw_buf_0 := by
  simp [applyBlock, setRawAt]

theorem applyBuffer_raw1_ne (s : GranularState) (tg szw : Nat) (p : List Nat) :
    (applyBlock s { tag := tg, target := .buffer 0, sizeWords := szw } p).raw_buf_1 = s.raw_buf_1 := by
  simp [applyBlock, setRawAt]

theorem finalizeLoad_head0 (s : GranularState) :
    activeWriteHead0 (finalizeLoad s) = s.persistentState.write_head_0 := by
  simp only [finalizeLoad, activeWriteHead0]
  split_ifs <;> rfl

theorem finalizeLoad_head1 (s : GranularState) :
    activeWriteHead1 (finalizeLoad s) = s.persistentState.write_head_1 := by
  simp only [finalizeLoad, activeWriteHead1]
  split_ifs <;> rfl

theorem finalizeLoad_freeze (s : GranularState) :
    (finalizeLoad s).params.freeze = true := by
  simp only [finalizeLoad] <;>
    first
    | rfl
    | (split_ifs <;> rfl)


theorem finalizeLoad_persistent (s : GranularState) :
    (finalizeLoad s).persistentState = s.persistentState := by
  simp only [finalizeLoad] <;>
    first
    | rfl
    | (split_ifs <;> rfl)

theorem finalizeLoad_playback (s : GranularState) :
    (finalizeLoad s).playback_mode = s.playback_mode := by
  simp only [finalizeLoad] <;>
    first
    | rfl
    | (split_ifs <;> rfl)

theorem getPersistentData_one (s : GranularState) (h : s.num_channels = 1) :
    getPersistentData s =
      [{ tag := kTagStat, target := .state, sizeWords := kPersistentStateWords },
       { tag := kTagBuff, target := .buffer 0,
         sizeWords := s.buffer_size_words_0 }] := by
  simp [getPersistentData, h, bufSizeAt, List.range_succ]

theorem getPersistentData_two (s : GranularState) (h : s.num_channels = 2) :
    getPersistentData s =
      [{ tag := kTagStat, target := .state, sizeWords := kPersistentStateWords },
       { tag := kTagBuff, target := .buffer 0,
         sizeWords := s.buffer_size_words_1 },
       { tag := kTagBuff, target := .buffer 1,
         sizeWords := s.buffer_size_words_1 }] := by
  simp [getPersistentData, h, bufSizeAt, List.range_succ]

theorem xor_zero_iff (a b : Nat) : Nat.xor a b = 0 ↔ a = b :=
  Nat.xor_eq_zero

theorem heal_noswitch (s : GranularState)
    (h : spectralIndicator s.playback_mode = s.persistentState.spectral) :
    healAtBlockZero s = prepare (setQuality s s.persistentState.quality) := by
  simp only [healAtBlockZero]
  rw [if_neg]
  intro hne
  exact hne ((xor_zero_iff _ _).mpr h)

theorem heal_switch (s : GranularState)
    (h : spectralIndicator s.playback_mode ≠ s.persistentState.spectral) :
    healAtBlockZero s =
      prepare (setQuality
        (setPlaybackMode s
          (if s.persistentState.spectral ≠ 0 then
            modeOfNat s.persistentState.spectral
          else PlaybackMode.granular))
        s.persistentState.quality) := by
  simp only [healAtBlockZero]
  rw [if_pos]
  · rfl
  · intro h0
    exact h ((xor_zero_iff _ _).mp h0)

theorem loadPersistentData_start_ok (s0 : GranularState) (d : List Nat) :
    loadPersistentData s0 (kTagStat :: kPersistentStateWords :: d) =
      loadRest
        (healAtBlockZero { s0 with
          silence := true
          persistentState := decodePS (d.take kPersistentStateWords) })
        ((getPersistentData
          (healAtBlockZero { s0 with
            silence := true
            persistentState := decodePS (d.take kPersistentStateWords) })).drop 1)
        (d.drop kPersistentStateWords) := by
  simp [loadPersistentData, getPersistentData, applyBlock]

theorem loadPersistentData_start_fail (s0 : GranularState) (t sz : Nat)
    (d : List Nat) (h : ¬(t = kTagStat ∧ sz = kPersistentStateWords)) :
    loadPersistentData s0 (t :: sz :: d) =
      ({ s0 with silence := false }, false) := by
  simp only [loadPersistentData, getPersistentData]
  rw [if_neg h]

theorem loadRest_buffers (src : GranularState) (bs : List PersistentBlock) :
    ∀ s : GranularState,
      (∀ b ∈ bs, ∃ tg szw i,
        b = { tag := tg, target := .buffer i, sizeWords := szw } ∧
        (blockPayload src b).length = szw) →
      ∃ s', loadRest s bs (streamOfBlocks src bs) = (finalizeLoad s', true) ∧
        s'.persistentState = s.persistentState ∧
        s'.low_fidelity = s.low_fidelity ∧
        s'.playback_mode = s.playback_mode := by
  induction bs with
  | nil =>
    intro s _
    exact ⟨s, rfl, rfl, rfl, rfl⟩
  | cons b bs ih =>
    intro s h
    obtain ⟨tg, szw, i, hb, hlen⟩ := h b (List.mem_cons_self b bs)
    subst hb
    rw [streamOfBlocks,
      loadRest_cons_ok s _ bs (blockPayload src _) (streamOfBlocks src bs) hlen]
    obtain ⟨s', h1, h2, h3, h4⟩ :=
      ih (applyBlock s _ (blockPayload src _))
        (fun b2 hb2 => h b2 (List.mem_cons_of_mem _ hb2))
    refine ⟨s', h1, ?_, ?_, ?_⟩
    · rw [h2, (applyBuffer_preserved _ _ _ _ _).1]
    · rw [h3, (applyBuffer_preserved _ _ _ _ _).2.2.1]
    · rw [h4, (applyBuffer_preserved _ _ _ _ _).2.2.2.1]

theorem load_saved_eq (s1 : GranularState)
    (hnc : s1.num_channels = 1 ∨ s1.num_channels = 2)
    (hns : spectralIndicator s1.playback_mode = s1.persistentState.spectral)
    (hl0 : bufSizeAt s1 (s1.num_channels - 1) ≤ s1.raw_buf_0.length)
    (hl1 : bufSizeAt s1 (s1.num_channels - 1) ≤ s1.raw_buf_1.length) :
    ∃ s', loadPersistentData s1 (savedStream s1) = (finalizeLoad s', true) ∧
      s'.persistentState = s1.persistentState ∧
      s'.low_fidelity = s1.low_fidelity ∧
      s'.playback_mode = s1.playback_mode := by
  rcases hnc with h1 | h2
  · -- one channel
    have hK : s1.buffer_size_words_0 ≤ s1.raw_buf_0.length := by
      rw [h1] at hl0
      simpa [bufSizeAt] using hl0
    have hstream : savedStream s1 =
        kTagStat :: kPersistentStateWords ::
          (encodePS s1.persistentState ++
            streamOfBlocks s1
              [{ tag := kTagBuff, target := .buffer 0,
                 sizeWords := s1.buffer_size_words_0 }]) := by
      rw [savedStream, getPersistentData_one s1 h1, streamOfBlocks]
      rfl
    rw [hstream, loadPersistentData_start_ok,
      take_append_len _ _ _ (encodePS_len _),
      drop_append_len _ _ _ (encodePS_len _), decode_encode]
    rw [heal_noswitch { s1 with silence := true } hns]
    rw [getPersistentData_one _ (by rw [prepare_channels]; exact h1)]
    simp only [List.drop_succ_cons, List.drop_zero]
    rw [show (prepare (setQuality { s1 with silence := true }
        ({ s1 with silence := true } :
          GranularState).persistentState.quality)).buffer_size_words_0 =
        s1.buffer_size_words_0 by rw [prepare_size0]; rfl]
    obtain ⟨s', hrun, hp1, hp2, hp3⟩ :=
      loadRest_buffers s1
        [{ tag := kTagBuff, target := .buffer 0,
           sizeWords := s1.buffer_size_words_0 }] _
        (by
          intro b hb
          rcases List.mem_singleton.mp hb with rfl
          refine ⟨kTagBuff, s1.buffer_size_words_0, 0, rfl, ?_⟩
          simp [blockPayload, rawAt, List.length_take, min_eq_left hK])
    rw [hrun]
    refine ⟨s', rfl, ?_, ?_, ?_⟩
    · rw [hp1, prepare_persistent]
      rfl
    · rw [hp2, prepare_lofi]
      rfl
    · rw [hp3, prepare_playback]
      rfl
  · -- two channels
    have hK0 : s1.buffer_size_words_1 ≤ s1.raw_buf_0.length := by
      rw [h2] at hl0
      simpa [bufSizeAt] using hl0
    have hK1 : s1.buffer_size_words_1 ≤ s1.raw_buf_1.length := by
      rw [h2] at hl1
      simpa [bufSizeAt] using hl1
    have hstream : savedStream s1 =
        kTagStat :: kPersistentStateWords ::
          (encodePS s1.persistentState ++
            streamOfBlocks s1
              [{ tag := kTagBuff, target := .buffer 0,
                 sizeWords := s1.buffer_size_words_1 },
               { tag := kTagBuff, target := .buffer 1,
                 sizeWords := s1.buffer_size_words_1 }]) := by
      rw [savedStream, getPersistentData_two s1 h2, streamOfBlocks]
      rfl
    rw [hstream, loadPersistentData_start_ok,
      take_append_len _ _ _ (encodePS_len _),
      drop_append_len _ _ _ (encodePS_len _), decode_encode]
    rw [heal_noswitch { s1 with silence := true } hns]
    rw [getPersistentData_two _ (by rw [prepare_channels]; exact h2)]
    simp only [List.drop_succ_cons, List.drop_zero]
    rw [show (prepare (setQuality { s1 with silence := true }
        ({ s1 with silence := true } :
          GranularState).persistentState.quality)).buffer_size_words_1 =
        s1.buffer_size_words_1 by rw [prepare_size1]; rfl]
    obtain ⟨s', hrun, hp1, hp2, hp3⟩ :=
      loadRest_buffers s1
        [{ tag := kTagBuff, target := .buffer 0,
           sizeWords := s1.buffer_size_words_1 },
         { tag := kTagBuff, target := .buffer 1,
           sizeWords := s1.buffer_size_words_1 }] _
        (by
          intro b hb
          rcases List.mem_cons.mp hb with rfl | hb2
          · refine ⟨kTagBuff, s1.buffer_size_words_1, 0, rfl, ?_⟩
            simp [blockPayload, rawAt, List.length_take, min_eq_left hK0]
          · rcases List.mem_singleton.mp hb2 with rfl
            refine ⟨kTagBuff, s1.buffer_size_words_1, 1, rfl, ?_⟩
            simp [blockPayload, rawAt, List.length_take, min_eq_left hK1])
    rw [hrun]
    refine ⟨s', rfl, ?_, ?_, ?_⟩
    · rw [hp1, prepare_persistent]
      rfl
    · rw [hp2, prepare_lofi]
      rfl
    · rw [hp3, prepare_playback]
      rfl

/-- C1: saving persistent state and loading the exact saved word stream back
without changing the playback mode succeeds; afterwards each active ring
buffer's write head equals the offset recorded at save time, the stored
spectral-mode flag equals the one recomputed from the current mode, and
freeze is force-enabled. -/
theorem roundTripPersistence (s0 : GranularState)
    (hnc : s0.num_channels = 1 ∨ s0.num_channels = 2)
    (hlen0 : bufSizeAt s0 (s0.num_channels - 1) ≤ s0.raw_buf_0.length)
    (hlen1 : bufSizeAt s0 (s0.num_channels - 1) ≤ s0.raw_buf_1.length) :
    (loadPersistentData (preparePersistentData s0)
        (savedStream (preparePersistentData s0))).2 = true ∧
    activeWriteHead0 (loadPersistentData (preparePersistentData s0)
        (savedStream (preparePersistentData s0))).1 = activeWriteHead0 s0 ∧
    activeWriteHead1 (loadPersistentData (preparePersistentData s0)
        (savedStream (preparePersistentData s0))).1 = activeWriteHead1 s0 ∧
    (loadPersistentData (preparePersistentData s0)
        (savedStream (preparePersistentData s0))).1.persistentState.spectral =
      spectralIndicator ((loadPersistentData (preparePersistentData s0)
        (savedStream (preparePersistentData s0))).1.playback_mode) ∧
    (loadPersistentData (preparePersistentData s0)
        (savedStream (preparePersistentData s0))).1.params.freeze = true := by
  obtain ⟨s', hrun, hps, hlofi, hpb⟩ :=
    load_saved_eq (preparePersistentData s0) hnc rfl hlen0 hlen1
  rw [hrun]
  refine ⟨rfl, ?_, ?_, ?_, finalizeLoad_freeze s'⟩
  · rw [finalizeLoad_head0, hps]
    rfl
  · rw [finalizeLoad_head1, hps]
    rfl
  · rw [finalizeLoad_persistent, finalizeLoad_playback, hps, hpb]
    rfl

/-- C1 witness: the round trip evaluated on a concrete prepared stereo
state. -/
theorem roundTripPersistenceWitness :
    (loadPersistentData (preparePersistentData exampleBaseState)
        (savedStream (preparePersistentData exampleBaseState))).2 = true ∧
    activeWriteHead0 (loadPersistentData (preparePersistentData exampleBaseState)
        (savedStream (preparePersistentData exampleBaseState))).1 =
      activeWriteHead0 exampleBaseState ∧
    activeWriteHead1 (loadPersistentData (preparePersistentData exampleBaseState)
        (savedStream (preparePersistentData exampleBaseState))).1 =
      activeWriteHead1 exampleBaseState ∧
    (loadPersistentData (preparePersistentData exampleBaseState)
        (savedStream (preparePersistentData exampleBaseState))).1.persistentState.spectral =
      spectralIndicator ((loadPersistentData (preparePersistentData exampleBaseState)
        (savedStream (preparePersistentData exampleBaseState))).1.playback_mode) ∧
    (loadPersistentData (preparePersistentData exampleBaseState)
        (savedStream (preparePersistentData exampleBaseState))).1.params.freeze = true :=
  roundTripPersistence exampleBaseState (Or.inr rfl) (by decide) (by decide)

theorem modeOfNat_indicator (m : PlaybackMode) (h : spectralIndicator m ≠ 0) :
    modeOfNat (spectralIndicator m) = m := by
  cases m <;> simp_all [spectralIndicator, PlaybackMode.toNat, modeOfNat]

/-- C3: when the stored spectral indicator differs from the one recomputed
from the active mode, the load copies the remaining per-channel buffer
blocks against a state obtained by setting the playback mode to the stored
mode (or GRANULAR when the stored indicator is zero), setting the quality
from the stored state, and running `Prepare` (so the state the buffers are
copied into is prepared: previous mode recorded, reset flag clear). -/
theorem selfHealingModeSwitch (s0 : GranularState) (d : List Nat)
    (m : PlaybackMode)
    (hstored : (decodePS (d.take kPersistentStateWords)).spectral =
      spectralIndicator m)
    (hdiff : spectralIndicator s0.playback_mode ≠
      (decodePS (d.take kPersistentStateWords)).spectral) :
    loadPersistentData s0 (kTagStat :: kPersistentStateWords :: d) =
      loadRest
        (prepare (setQuality
          (setPlaybackMode
            { s0 with
              silence := true
              persistentState := decodePS (d.take kPersistentStateWords) }
            (if (decodePS (d.take kPersistentStateWords)).spectral ≠ 0 then
              modeOfNat (decodePS (d.take kPersistentStateWords)).spectral
            else PlaybackMode.granular))
          (decodePS (d.take kPersistentStateWords)).quality))
        ((getPersistentData
          (prepare (setQuality
            (setPlaybackMode
              { s0 with
                silence := true
                persistentState := decodePS (d.take kPersistentStateWords) }
              (if (decodePS (d.take kPersistentStateWords)).spectral ≠ 0 then
                modeOfNat (decodePS (d.take kPersistentStateWords)).spectral
              else PlaybackMode.granular))
            (decodePS (d.take kPersistentStateWords)).quality))).drop 1)
        (d.drop kPersistentStateWords) ∧
    (healAtBlockZero { s0 with
        silence := true
        persistentState := decodePS (d.take kPersistentStateWords) }).playback_mode =
      (if (decodePS (d.take kPersistentStateWords)).spectral = 0 then
        PlaybackMode.granular
      else m) ∧
    (healAtBlockZero { s0 with
        silence := true
        persistentState := decodePS (d.take kPersistentStateWords) }).quality =
      (decodePS (d.take kPersistentStateWords)).quality ∧
    (healAtBlockZero { s0 with
        silence := true
        persistentState := decodePS (d.take kPersistentStateWords) }).previous_playback_mode =
      (healAtBlockZero { s0 with
        silence := true
        persistentState := decodePS (d.take kPersistentStateWords) }).playback_mode ∧
    (healAtBlockZero { s0 with
        silence := true
        persistentState := decodePS (d.take kPersistentStateWords) }).reset_buffers =
      false := by
  refine ⟨?_, ?_, ?_, ?_, ?_⟩
  · rw [loadPersistentData_start_ok, heal_switch _ hdiff]
  · rw [heal_switch _ hdiff, prepare_playback]
    by_cases h0 : (decodePS (d.take kPersistentStateWords)).spectral = 0
    · simp [setQuality, setPlaybackMode, h0]
    · have hm : modeOfNat (spectralIndicator m) = m :=
        modeOfNat_indicator m (by rw [← hstored]; exact h0)
      simp only [setQuality, setPlaybackMode]
      rw [if_neg h0, if_pos h0]
      rw [hstored, hm]
  · rw [heal_switch _ hdiff, prepare_quality]
    rfl
  · rw [heal_switch _ hdiff, (prepare_prepared _).1, prepare_playback]
  · rw [heal_switch _ hdiff]
    exact (prepare_prepared _).2

/-- C3 witness: loading spectral-mode-saved-as-granular data while SPECTRAL
is active switches back to GRANULAR with the stored quality, prepared,
before the buffer blocks are consumed. -/
theorem selfHealingModeSwitchWitness :
    (healAtBlockZero { { exampleBaseState with
        playback_mode := PlaybackMode.spectral } with
        silence := true
        persistentState := decodePS ([0, 0, 5, 0].take kPersistentStateWords) }).playback_mode =
      (if (decodePS ([0, 0, 5, 0].take kPersistentStateWords)).spectral = 0 then
        PlaybackMode.granular
      else PlaybackMode.granular) ∧
    (healAtBlockZero { { exampleBaseState with
        playback_mode := PlaybackMode.spectral } with
        silence := true
        persistentState := decodePS ([0, 0, 5, 0].take kPersistentStateWords) }).quality =
      (decodePS ([0, 0, 5, 0].take kPersistentStateWords)).quality ∧
    (healAtBlockZero { { exampleBaseState with
        playback_mode := PlaybackMode.spectral } with
        silence := true
        persistentState := decodePS ([0, 0, 5, 0].take kPersistentStateWords) }).reset_buffers =
      false :=
  ⟨(selfHealingModeSwitch { exampleBaseState with
      playback_mode := PlaybackMode.spectral } [0, 0, 5, 0]
      PlaybackMode.granular (by decide) (by decide)).2.1,
   (selfHealingModeSwitch { exampleBaseState with
      playback_mode := PlaybackMode.spectral } [0, 0, 5, 0]
      PlaybackMode.granular (by decide) (by decide)).2.2.1,
   (selfHealingModeSwitch { exampleBaseState with
      playback_mode := PlaybackMode.spectral } [0, 0, 5, 0]
      PlaybackMode.granular (by decide) (by decide)).2.2.2.2⟩

theorem heal_channels (s : GranularState) :
    (healAtBlockZero s).num_channels = s.num_channels := by
  simp only [healAtBlockZero]
  split_ifs <;> simp [prepare_channels, setQuality, setPlaybackMode]

theorem heal_size0 (s : GranularState) :
    (healAtBlockZero s).buffer_size_words_0 = s.buffer_size_words_0 := by
  simp only [healAtBlockZero]
  split_ifs <;> simp [prepare_size0, setQuality, setPlaybackMode]

theorem heal_size1 (s : GranularState) :
    (healAtBlockZero s).buffer_size_words_1 = s.buffer_size_words_1 := by
  simp only [healAtBlockZero]
  split_ifs <;> simp [prepare_size1, setQuality, setPlaybackMode]

theorem heal_raw0 (s : GranularState) :
    (healAtBlockZero s).raw_buf_0 = s.raw_buf_0 := by
  simp only [healAtBlockZero]
  split_ifs <;> simp [prepare_raw0, setQuality, setPlaybackMode]

theorem heal_raw1 (s : GranularState) :
    (healAtBlockZero s).raw_buf_1 = s.raw_buf_1 := by
  simp only [healAtBlockZero]
  split_ifs <;> simp [prepare_raw1, setQuality, setPlaybackMode]

/-- C2: for every word stream whose first k blocks carry the expected
headers but whose block-k tag or size word differs from the locally
computed expected block k, the load returns false, does not copy block k or
any later block (blocks before k may already have been copied), and leaves
the silence flag cleared on the failure return. -/
theorem loadFormatValidation (s0 : GranularState)
    (hnc : s0.num_channels = 1 ∨ s0.num_channels = 2)
    (k : Nat) (hk : k < (getPersistentData s0).length)
    (pays : List (List Nat))
    (hplen : List.Forall₂ (fun p b => p.length = b.sizeWords) pays
      ((getPersistentData s0).take k))
    (t sz : Nat) (tail : List Nat)
    (hbad : ¬(t = ((getPersistentData s0).getD k
        { tag := 0, target := .state, sizeWords := 0 }).tag ∧
      sz = ((getPersistentData s0).getD k
        { tag := 0, target := .state, sizeWords := 0 }).sizeWords)) :
    (loadPersistentData s0 (headerStream ((getPersistentData s0).take k) pays ++
        t :: sz :: tail)).2 = false ∧
    (loadPersistentData s0 (headerStream ((getPersistentData s0).take k) pays ++
        t :: sz :: tail)).1.silence = false ∧
    (∀ j, k ≤ j → j < (getPersistentData s0).length →
      targetUntouched s0
        (loadPersistentData s0 (headerStream ((getPersistentData s0).take k) pays ++
          t :: sz :: tail)).1
        ((getPersistentData s0).getD j
          { tag := 0, target := .state, sizeWords := 0 }).target) := by
  rcases hnc with h1 | h2
  · -- one channel: expected blocks are the state block and one buffer block
    rw [getPersistentData_one s0 h1] at hk hplen hbad ⊢
    simp only [List.length_cons, List.length_nil] at hk
    interval_cases k
    · -- corrupted state-block header
      simp only [List.take_zero] at hplen ⊢
      cases hplen
      simp only [headerStream, List.nil_append]
      have hb : ¬(t = kTagStat ∧ sz = kPersistentStateWords) := by
        simpa using hbad
      rw [loadPersistentData_start_fail s0 t sz tail hb]
      refine ⟨rfl, rfl, ?_⟩
      intro j hkj hj
      simp only [List.length_cons, List.length_nil] at hj
      interval_cases j
      · simp [targetUntouched]
      · simp [targetUntouched, rawAt]
    · -- corrupted buffer-block header after a valid state block
      simp only [List.take_succ_cons, List.take_zero] at hplen ⊢
      obtain ⟨p0, ps0, hp0, htl, rfl⟩ := List.forall₂_cons_right_iff.mp hplen
      obtain rfl : ps0 = [] := by
        cases htl
        rfl
      simp only [headerStream, List.append_nil, List.cons_append,
        List.append_assoc] at hbad ⊢
      simp only [] at hp0
      rw [loadPersistentData_start_ok,
        take_append_len _ _ _ hp0, drop_append_len _ _ _ hp0]
      rw [getPersistentData_one _ (by rw [heal_channels]; exact h1)]
      simp only [List.drop_succ_cons, List.drop_zero]
      rw [show (healAtBlockZero { s0 with
          silence := true
          persistentState := decodePS p0 }).buffer_size_words_0 =
        s0.buffer_size_words_0 by rw [heal_size0]]
      have hb : ¬(t = kTagBuff ∧ sz = s0.buffer_size_words_0) := by
        simpa using hbad
      rw [loadRest_cons_fail _ _ _ _ _ _ hb]
      refine ⟨rfl, rfl, ?_⟩
      intro j hkj hj
      simp only [List.length_cons, List.length_nil] at hj
      interval_cases j
      simp [targetUntouched, rawAt, heal_raw0]
  · -- two channels: the state block and two buffer blocks
    rw [getPersistentData_two s0 h2] at hk hplen hbad ⊢
    simp only [List.length_cons, List.length_nil] at hk
    interval_cases k
    · -- corrupted state-block header
      simp only [List.take_zero] at hplen ⊢
      cases hplen
      simp only [headerStream, List.nil_append]
      have hb : ¬(t = kTagStat ∧ sz = kPersistentStateWords) := by
        simpa using hbad
      rw [loadPersistentData_start_fail s0 t sz tail hb]
      refine ⟨rfl, rfl, ?_⟩
      intro j hkj hj
      simp only [List.length_cons, List.length_nil] at hj
      interval_cases j
      · simp [targetUntouched]
      · simp [targetUntouched, rawAt]
      · simp [targetUntouched, rawAt]
    · -- corrupted first buffer-block header
      simp only [List.take_succ_cons, List.take_zero] at hplen ⊢
      obtain ⟨p0, ps0, hp0, htl, rfl⟩ := List.forall₂_cons_right_iff.mp hplen
      obtain rfl : ps0 = [] := by
        cases htl
        rfl
      simp only [headerStream, List.append_nil, List.cons_append,
        List.append_assoc] at hbad ⊢
      simp only [] at hp0
      rw [loadPersistentData_start_ok,
        take_append_len _ _ _ hp0, drop_append_len _ _ _ hp0]
      rw [getPersistentData_two _ (by rw [heal_channels]; exact h2)]
      simp only [List.drop_succ_cons, List.drop_zero]
      rw [show (healAtBlockZero { s0 with
          silence := true
          persistentState := decodePS p0 }).buffer_size_words_1 =
        s0.buffer_size_words_1 by rw [heal_size1]]
      have hb : ¬(t = kTagBuff ∧ sz = s0.buffer_size_words_1) := by
        simpa using hbad
      rw [loadRest_cons_fail _ _ _ _ _ _ hb]
      refine ⟨rfl, rfl, ?_⟩
      intro j hkj hj
      simp only [List.length_cons, List.length_nil] at hj
      interval_cases j
      · simp [targetUntouched, rawAt, heal_raw0]
      · simp [targetUntouched, rawAt, heal_raw1]
    · -- corrupted second buffer-block header
      simp only [List.take_succ_cons, List.take_zero] at hplen ⊢
      obtain ⟨p0, ps0, hp0, htl, rfl⟩ := List.forall₂_cons_right_iff.mp hplen
      obtain ⟨p1, ps1, hp1, htl2, rfl⟩ := List.forall₂_cons_right_iff.mp htl
      obtain rfl : ps1 = [] := by
        cases htl2
        rfl
      simp only [headerStream, List.append_nil, List.cons_append,
        List.append_assoc] at hbad ⊢
      simp only [] at hp0 hp1
      rw [loadPersistentData_start_ok,
        take_append_len _ _ _ hp0, drop_append_len _ _ _ hp0]
      rw [getPersistentData_two _ (by rw [heal_channels]; exact h2)]
      simp only [List.drop_succ_cons, List.drop_zero]
      rw [show (healAtBlockZero { s0 with
          silence := true
          persistentState := decodePS p0 }).buffer_size_words_1 =
        s0.buffer_size_words_1 by rw [heal_size1]]
      rw [loadRest_cons_ok _ _ _ p1 _ hp1]
      have hb : ¬(t = kTagBuff ∧ sz = s0.buffer_size_words_1) := by
        simpa using hbad
      rw [loadRest_cons_fail _ _ _ _ _ _ hb]
      refine ⟨rfl, rfl, ?_⟩
      intro j hkj hj
      simp only [List.length_cons, List.length_nil] at hj
      interval_cases j
      simp [targetUntouched, rawAt, applyBuffer_raw1_ne, heal_raw1]

/-- C2 witness: a stream with a valid state block and a zero tag / size pair
where the first buffer block should be fails, leaves the silence flag
cleared, and leaves the second channel's raw region untouched. -/
theorem loadFormatValidationWitness :
    (loadPersistentData exampleBaseState
        (headerStream ((getPersistentData exampleBaseState).take 1)
          [[9, 9, 9, 9]] ++ 0 :: 0 :: [])).2 = false ∧
    (loadPersistentData exampleBaseState
        (headerStream ((getPersistentData exampleBaseState).take 1)
          [[9, 9, 9, 9]] ++ 0 :: 0 :: [])).1.silence = false ∧
    targetUntouched exampleBaseState
      (loadPersistentData exampleBaseState
        (headerStream ((getPersistentData exampleBaseState).take 1)
          [[9, 9, 9, 9]] ++ 0 :: 0 :: [])).1
      ((getPersistentData exampleBaseState).getD 2
        { tag := 0, target := .state, sizeWords := 0 }).target :=
  ⟨(loadFormatValidation exampleBaseState (Or.inr rfl) 1 (by decide)
      [[9, 9, 9, 9]]
      (by
        rw [getPersistentData_two exampleBaseState rfl]
        simp only [List.take_succ_cons, List.take_zero]
        exact List.Forall₂.cons (by decide) List.Forall₂.nil)
      0 0 [] (by decide)).1,
   (loadFormatValidation exampleBaseState (Or.inr rfl) 1 (by decide)
      [[9, 9, 9, 9]]
      (by
        rw [getPersistentData_two exampleBaseState rfl]
        simp only [List.take_succ_cons, List.take_zero]
        exact List.Forall₂.cons (by decide) List.Forall₂.nil)
      0 0 [] (by decide)).2.1,
   (loadFormatValidation exampleBaseState (Or.inr rfl) 1 (by decide)
      [[9, 9, 9, 9]]
      (by
        rw [getPersistentData_two exampleBaseState rfl]
        simp only [List.take_succ_cons, List.take_zero]
        exact List.Forall₂.cons (by decide) List.Forall₂.nil)
      0 0 [] (by decide)).2.2 2 (by decide) (by decide)⟩
